import Mathlib

/-!
Verification of the Vitruvio orchestration layer
(`VitruvioHost/Plugins/Vitruvio/Source/Vitruvio/Private/VitruvioModule.cpp`).

The development shallowly embeds the module-level orchestration code:

* `Vitruvio.FInitialShape`      — the per-shape request data relevant to orchestration
  (caller-assigned shape index, rule-package identity, occluder-only flag);
* `Vitruvio.ModState`           — the module state (the `Initialized` flag, the three
  outstanding-call counters, the occlusion-handle registry);
* `Vitruvio.BatchGenerate`, `Vitruvio.Generate`,
  `Vitruvio.BatchEvaluateRuleAttributes`, `Vitruvio.EvaluateRuleAttributesAsync`
  — the dispatch entry points, with the engine (PRT) modelled as an oracle of
  per-call status codes and each engine invocation recorded in a trace;
* a small-step interleaving model of `VitruvioModule::LoadResolveMapAsync` and
  `FLoadResolveMapTask` (`Vitruvio.resolveStep` / `Vitruvio.resolveRun`), where each
  critical section of the C++ code is one atomic step.

Counters are modelled as `Int` (they are `FThreadSafeCounter`, i.e. signed 32-bit;
no value in any theorem approaches the wrap-around, so plain integers are faithful).
Engine-side opaque handles are modelled as naturals drawn from a freshness counter.
-/

namespace Vitruvio

/-- One initial-shape request as far as the orchestration layer inspects it:
`FInitialShape::InitialShapeIndex` (an `int64`, caller-assigned, stable across the
batch), the rule-package identity (`URulePackage*`, modelled as a `Nat` key) and
`FInitialShape::bOccluderOnly`. -/
structure FInitialShape where
  initialShapeIndex : Int
  rulePackage : Nat
  bOccluderOnly : Bool
deriving DecidableEq, Repr

/-- Status oracle for the engine (PRT) calls issued by one dispatch: the status
returned by the attribute-evaluation `generate` call, by `generateOccluders`, and
by the final geometry-producing `generate` call. `true` stands for
`prt::STATUS_OK`. -/
structure Engine where
  evalOk : Bool
  occludersOk : Bool
  genOk : Bool
deriving DecidableEq, Repr

/-- All three engine-call statuses are `STATUS_OK`. -/
def engAllOk : Engine := ⟨true, true, true⟩

/-- Labels for the engine calls a dispatch issues, in order. -/
inductive ECall
  | evalGenerate
  | generateOccluders
  | finalGenerate
deriving DecidableEq, Repr

/-- Module state: the `Initialized` flag (called `ready` here), the three
outstanding-call counters (`GenerateCallsCounter`, `LoadAttributesCounter`,
`RpkLoadingTasksCounter`), and the occlusion registry (`OcclusionHandleCache`,
keyed by `int64` shape index). `occlusionNextHandle` is the freshness counter
from which the engine's new occlusion handles are drawn in this model, and
`disposedOcclusionHandles` records every handle passed to
`prt::OcclusionSet::dispose`. -/
structure ModState where
  ready : Bool
  generateCallsCounter : Int
  loadAttributesCounter : Int
  rpkLoadingTasksCounter : Int
  occlusionHandleCache : List (Int × Nat)
  occlusionNextHandle : Nat
  disposedOcclusionHandles : List Nat
deriving DecidableEq, Repr

/-- `TMap::Find` on the occlusion registry. -/
def lookupOcc : List (Int × Nat) → Int → Option Nat
  | [], _ => none
  | (j, h) :: rest, i => if j = i then some h else lookupOcc rest i

/-- `TMap::Remove` on the occlusion registry. -/
def removeOcc : List (Int × Nat) → Int → List (Int × Nat)
  | [], _ => []
  | (j, h) :: rest, i => if j = i then removeOcc rest i else (j, h) :: removeOcc rest i

/-- `TMap::Add` on the occlusion registry: replaces the value of an existing key,
appends a new entry otherwise. -/
def insertOcc : List (Int × Nat) → Int → Nat → List (Int × Nat)
  | [], i, h => [(i, h)]
  | (j, g) :: rest, i, h => if j = i then (i, h) :: rest else (j, g) :: insertOcc rest i h

/-- `TMap<URulePackage*, TArray<FInitialShape>>::FindOrAdd(...).Add(...)`:
append the shape to its package's group, creating the group at the back on first
occurrence. `TMap` iteration order is insertion order, so the grouping order is
the order of first occurrence of each package. -/
def addToGroups (groups : List (Nat × List FInitialShape)) (s : FInitialShape) :
    List (Nat × List FInitialShape) :=
  match groups with
  | [] => [(s.rulePackage, [s])]
  | (p, ss) :: rest =>
    if p = s.rulePackage then (p, ss ++ [s]) :: rest else (p, ss) :: addToGroups rest s

/-- Grouping of a request batch by rule package (`VitruvioModule.cpp:435-446` and
`VitruvioModule.cpp:880-884`). -/
def groupByPackage (shapes : List FInitialShape) : List (Nat × List FInitialShape) :=
  shapes.foldl addToGroups []

/-- Flattening of the per-package groups back into one list, in grouping order —
this is the iteration order of the `ForeachInitialShape` helpers
(`VitruvioModule.cpp:470-485` and `VitruvioModule.cpp:908-920`). -/
def flattenGroups (groups : List (Nat × List FInitialShape)) : List FInitialShape :=
  groups.foldr (fun g acc => g.2 ++ acc) []

/-- The loop body of `VitruvioModule::InvalidateOcclusionHandles`
(`VitruvioModule.cpp:1020-1030`): walks the index list, collecting the handle of
every index present in the registry and removing the entry. Returns the new
registry and the handles to dispose. -/
def invalidateLoop : List (Int × Nat) → List Nat → List Int → List (Int × Nat) × List Nat
  | cache, handles, [] => (cache, handles)
  | cache, handles, i :: rest =>
    let handles' := match lookupOcc cache i with
      | some h => handles ++ [h]
      | none => handles
    invalidateLoop (removeOcc cache i) handles' rest

/-- `VitruvioModule::InvalidateOcclusionHandles` (`VitruvioModule.cpp:1016-1033`):
remove the mappings and dispose the collected handles. -/
def InvalidateOcclusionHandles (st : ModState) (idxs : List Int) : ModState :=
  let r := invalidateLoop st.occlusionHandleCache [] idxs
  { st with occlusionHandleCache := r.1,
            disposedOcclusionHandles := st.disposedOcclusionHandles ++ r.2 }

/-- `VitruvioModule::InvalidateOcclusionHandle` (`VitruvioModule.cpp:1004-1014`):
if the index is present, dispose its handle and remove the mapping. -/
def InvalidateOcclusionHandle (st : ModState) (i : Int) : ModState :=
  match lookupOcc st.occlusionHandleCache i with
  | some h =>
    { st with occlusionHandleCache := removeOcc st.occlusionHandleCache i,
              disposedOcclusionHandles := st.disposedOcclusionHandles ++ [h] }
  | none => st

/-- `VitruvioModule::InvalidateAllOcclusionHandles` (`VitruvioModule.cpp:1035-1041`):
empty the registry and recreate the engine occlusion set (the old handles die with
the discarded set; `dispose` is not called on them). -/
def InvalidateAllOcclusionHandles (st : ModState) : ModState :=
  { st with occlusionHandleCache := [] }

/-- The shape indices for which `generateOccluders` is issued: those not already
present in the registry (`VitruvioModule.cpp:584-590` and
`VitruvioModule.cpp:756-765`). -/
def missingIndices (cache : List (Int × Nat)) (idxs : List Int) : List Int :=
  idxs.filter (fun i => (lookupOcc cache i).isNone)

/-- Recording of the handles returned by `generateOccluders`
(`VitruvioModule.cpp:607-614` and `VitruvioModule.cpp:787-794`): one fresh handle
per missing shape, inserted with `TMap::Add`. The fresh handles are drawn from
the freshness counter. -/
def addFresh : List (Int × Nat) → Nat → List Int → List (Int × Nat) × Nat
  | cache, nxt, [] => (cache, nxt)
  | cache, nxt, i :: rest => addFresh (insertOcc cache i nxt) (nxt + 1) rest

/-- State update for the occluder-computation call. -/
def addFreshHandles (st : ModState) (missing : List Int) : ModState :=
  let r := addFresh st.occlusionHandleCache st.occlusionNextHandle missing
  { st with occlusionHandleCache := r.1, occlusionNextHandle := r.2 }

/-- The orchestration-level content of `FGenerateResultDescription`: the order
(by caller shape index) of the evaluated attribute maps, and whether any geometry
was emitted through the output sink. -/
structure GenResultDescription where
  evaluatedAttrIndices : List Int
  geometryDelivered : Bool
deriving DecidableEq, Repr

/-- The `{}` result returned by the failure and rejection paths. -/
def emptyGenResult : GenResultDescription := ⟨[], false⟩

/-- `VitruvioModule::BatchGenerate` (`VitruvioModule.cpp:420-676`).

Control flow mirrored line by line:
* line 422: empty main batch returns `{}` before the counter and any engine call;
* line 427: `CHECK_PRT_INITIALIZED` returns `{}` when not initialized;
* line 429: `GenerateCallsCounter.Add(InitialShapes.Num())`;
* lines 445-446: `ExtractRulePackage(MoveTemp(InitialShapes))` /
  `ExtractRulePackage(MoveTemp(OccluderOnlyShapes))` move-construct the lambda's
  by-value parameter from the local arrays, leaving both locals **empty** — every
  later read of `InitialShapes.Num()` yields `0` (`initialShapesAfterMove` below);
* lines 505-544: the attribute-evaluation `generate` call; on failure, line 532
  rolls the counter back by `InitialShapes.Num()`, i.e. by `0`;
* lines 558-615: occlusion phase (when enabled): invalidate the main-batch
  indices, compute occluders for every index not in the registry; on failure,
  line 599 rolls the counter back by `Decrement()`, i.e. by `1`;
* lines 654-665: the final geometry `generate` call; on failure line 660 rolls
  back by `NumInitialShapes` (saved at line 431, before the move);
* lines 667-675: success: counter decremented by `NumInitialShapes`, result with
  the evaluated attributes (in grouping order, see `flattenGroups`) and the
  geometry delivered through the sink. -/
def BatchGenerate (st : ModState) (eng : Engine)
    (initialShapes occluderOnlyShapes : List FInitialShape)
    (bEnableOcclusionQueries : Bool) : GenResultDescription × ModState × List ECall :=
  if initialShapes.isEmpty then (emptyGenResult, st, [])
  else if st.ready = false then (emptyGenResult, st, [])
  else
    let st1 := { st with generateCallsCounter := st.generateCallsCounter + initialShapes.length }
    let numInitialShapes : Int := initialShapes.length
    let initialShapeIndices := initialShapes.map FInitialShape.initialShapeIndex
    let initialShapesAfterMove : List FInitialShape := []
    let groups := groupByPackage (initialShapes ++ occluderOnlyShapes)
    let allGrouped := flattenGroups groups
    let nonOccluders := allGrouped.filter (fun s => s.bOccluderOnly = false)
    let occluders := allGrouped.filter (fun s => s.bOccluderOnly = true)
    if eng.evalOk = false then
      (emptyGenResult,
       { st1 with generateCallsCounter :=
          st1.generateCallsCounter - initialShapesAfterMove.length },
       [ECall.evalGenerate])
    else
      let evaluatedAttrIndices := nonOccluders.map FInitialShape.initialShapeIndex
      if bEnableOcclusionQueries then
        let st2 := InvalidateOcclusionHandles st1 initialShapeIndices
        let allIndices := (nonOccluders ++ occluders).map FInitialShape.initialShapeIndex
        let missing := missingIndices st2.occlusionHandleCache allIndices
        if eng.occludersOk = false then
          (emptyGenResult,
           { st2 with generateCallsCounter := st2.generateCallsCounter - 1 },
           [ECall.evalGenerate, ECall.generateOccluders])
        else
          let st3 := addFreshHandles st2 missing
          if eng.genOk = false then
            (emptyGenResult,
             { st3 with generateCallsCounter := st3.generateCallsCounter - numInitialShapes },
             [ECall.evalGenerate, ECall.generateOccluders, ECall.finalGenerate])
          else
            ({ evaluatedAttrIndices := evaluatedAttrIndices, geometryDelivered := true },
             { st3 with generateCallsCounter := st3.generateCallsCounter - numInitialShapes },
             [ECall.evalGenerate, ECall.generateOccluders, ECall.finalGenerate])
      else
        if eng.genOk = false then
          (emptyGenResult,
           { st1 with generateCallsCounter := st1.generateCallsCounter - numInitialShapes },
           [ECall.evalGenerate, ECall.finalGenerate])
        else
          ({ evaluatedAttrIndices := evaluatedAttrIndices, geometryDelivered := true },
           { st1 with generateCallsCounter := st1.generateCallsCounter - numInitialShapes },
           [ECall.evalGenerate, ECall.finalGenerate])

/-- `VitruvioModule::Generate` (`VitruvioModule.cpp:706-827`), the single-batch
variant: `CHECK_PRT_INITIALIZED` first (line 708), empty-input early-out before
the counter (lines 710-713), `GenerateCallsCounter.Increment()` (line 715),
occlusion compute-if-absent when more than one shape is passed (lines 749-804,
with the counter rolled back by one on `generateOccluders` failure at line 780),
then the geometry `generate` call with the counter decremented unconditionally
at line 814 before the status check. -/
def Generate (st : ModState) (eng : Engine) (initialShapes : List FInitialShape) :
    GenResultDescription × ModState × List ECall :=
  if st.ready = false then (emptyGenResult, st, [])
  else if initialShapes.isEmpty then (emptyGenResult, st, [])
  else
    let st1 := { st with generateCallsCounter := st.generateCallsCounter + 1 }
    let bInterOcclusion := 1 < initialShapes.length
    if bInterOcclusion then
      let missing := missingIndices st1.occlusionHandleCache
        (initialShapes.map FInitialShape.initialShapeIndex)
      if missing.isEmpty then
        let st2 := { st1 with generateCallsCounter := st1.generateCallsCounter - 1 }
        if eng.genOk = false then (emptyGenResult, st2, [ECall.finalGenerate])
        else ({ evaluatedAttrIndices := [], geometryDelivered := true }, st2,
              [ECall.finalGenerate])
      else
        if eng.occludersOk = false then
          (emptyGenResult,
           { st1 with generateCallsCounter := st1.generateCallsCounter - 1 },
           [ECall.generateOccluders])
        else
          let st2 := addFreshHandles st1 missing
          let st3 := { st2 with generateCallsCounter := st2.generateCallsCounter - 1 }
          if eng.genOk = false then
            (emptyGenResult, st3, [ECall.generateOccluders, ECall.finalGenerate])
          else ({ evaluatedAttrIndices := [], geometryDelivered := true }, st3,
                [ECall.generateOccluders, ECall.finalGenerate])
    else
      let st2 := { st1 with generateCallsCounter := st1.generateCallsCounter - 1 }
      if eng.genOk = false then (emptyGenResult, st2, [ECall.finalGenerate])
      else ({ evaluatedAttrIndices := [], geometryDelivered := true }, st2,
            [ECall.finalGenerate])

/-- `VitruvioModule::BatchEvaluateRuleAttributes` (`VitruvioModule.cpp:874-981`):
`CHECK_PRT_INITIALIZED`, `LoadAttributesCounter.Add(N)` (line 878; the grouping
loop at lines 880-884 moves the *elements*, so the array keeps its length and
the later `Subtract(InitialShapes.Num())` calls do subtract `N`), one
attribute-evaluation `generate` call, and the evaluated attribute maps appended
in grouping order (lines 969-975). The returned list holds the caller shape
index of each evaluated attribute map, in result-list position order. -/
def BatchEvaluateRuleAttributes (st : ModState) (eng : Engine)
    (initialShapes : List FInitialShape) : List Int × ModState × List ECall :=
  if st.ready = false then ([], st, [])
  else
    let st1 := { st with
      loadAttributesCounter := st.loadAttributesCounter + initialShapes.length }
    let groups := groupByPackage initialShapes
    if eng.evalOk = false then
      ([],
       { st1 with loadAttributesCounter := st1.loadAttributesCounter - initialShapes.length },
       [ECall.evalGenerate])
    else
      ((flattenGroups groups).map FInitialShape.initialShapeIndex,
       { st1 with loadAttributesCounter := st1.loadAttributesCounter - initialShapes.length },
       [ECall.evalGenerate])

/-- Outcome of `VitruvioModule::EvaluateRuleAttributesAsync`. -/
inductive AttrEvalOutcome
  | notReadyEmpty
  | nullMap
  | evaluated
deriving DecidableEq, Repr

/-- `VitruvioModule::EvaluateRuleAttributesAsync` (`VitruvioModule.cpp:829-872`):
`CHECK_PRT_INITIALIZED_ASYNC` (immediately-completed empty result, line 833),
`LoadAttributesCounter.Increment()` (line 835); if `createRuleFileInfo` fails
(`ruleInfoOk = false`), the worker returns a null attribute map at lines 848-855
**without decrementing the counter**; otherwise `EvaluateRuleAttributes` issues
the attribute-evaluation `generate` call (its status is not checked) and the
counter is decremented at line 860. -/
def EvaluateRuleAttributesAsync (st : ModState) (ruleInfoOk : Bool) :
    AttrEvalOutcome × ModState × List ECall :=
  if st.ready = false then (.notReadyEmpty, st, [])
  else
    let st1 := { st with loadAttributesCounter := st.loadAttributesCounter + 1 }
    if ruleInfoOk = false then (.nullMap, st1, [])
    else
      (.evaluated,
       { st1 with loadAttributesCounter := st1.loadAttributesCounter - 1 },
       [ECall.evalGenerate])

/-- The drain condition polled by `VitruvioModule::ShutdownModule`
(`VitruvioModule.cpp:370-372`): engine resources are released only once all
three outstanding-call counters are simultaneously zero. -/
def ShutdownDrained (st : ModState) : Bool :=
  st.generateCallsCounter == 0 && st.rpkLoadingTasksCounter == 0 &&
    st.loadAttributesCounter == 0

/-- An async entry point's return: a future that is already completed when the
entry point returns (the `CHECK_PRT_INITIALIZED_ASYNC` path), or one whose value
is produced later on a worker thread. -/
inductive FutureCompletion (α : Type)
  | immediate (value : α)
  | deferredWork (value : α)
deriving DecidableEq, Repr

/-- `VitruvioModule::BatchGenerateAsync` (`VitruvioModule.cpp:406-418`). -/
def BatchGenerateAsync (st : ModState) (eng : Engine)
    (initialShapes occluderOnlyShapes : List FInitialShape) (bEnableOcclusionQueries : Bool) :
    FutureCompletion (GenResultDescription × ModState × List ECall) :=
  if st.ready = false then .immediate (emptyGenResult, st, [])
  else .deferredWork (BatchGenerate st eng initialShapes occluderOnlyShapes bEnableOcclusionQueries)

/-- `VitruvioModule::GenerateAsync` (`VitruvioModule.cpp:692-704`). -/
def GenerateAsync (st : ModState) (eng : Engine) (initialShapes : List FInitialShape) :
    FutureCompletion (GenResultDescription × ModState × List ECall) :=
  if st.ready = false then .immediate (emptyGenResult, st, [])
  else .deferredWork (Generate st eng initialShapes)

/-- `VitruvioModule::BatchEvaluateRuleAttributesAsync` (`VitruvioModule.cpp:678-690`). -/
def BatchEvaluateRuleAttributesAsync (st : ModState) (eng : Engine)
    (initialShapes : List FInitialShape) :
    FutureCompletion (List Int × ModState × List ECall) :=
  if st.ready = false then .immediate ([], st, [])
  else .deferredWork (BatchEvaluateRuleAttributes st eng initialShapes)

/-! ## The resolve-map cache and in-flight registry

A small-step interleaving model of `VitruvioModule::LoadResolveMapAsync`
(`VitruvioModule.cpp:1079-1146`) and `FLoadResolveMapTask::DoTask`
(`VitruvioModule.cpp:102-141`) for a single rule-package identity.  Each atomic
step of the model corresponds to one critical section (`FScopeLock` scope) or
lock-free region of the C++ code; threads are worker threads concurrently
calling `LoadResolveMapAsync` for the same identity.  `runTask` models a
*successful* materialize-and-resolve (the failure case is modelled separately
by `FLoadResolveMapTaskDoTask` below). -/

/-- Per-thread control point of one `LoadResolveMapAsync` call. `done res`
means the call's future has completed with `res` (`none` is a null
`ResolveMapSPtr`). -/
inductive TState
  | start
  | passedGuard
  | cacheMissed
  | attachedTo (t : Nat)
  | observedNone
  | taskRegistered
  | done (res : Option Nat)
deriving DecidableEq, Repr

/-- One atomic step of the resolve protocol, tagged by the thread performing it. -/
inductive REvent
  | guardReady (t : Nat)
  | checkCache (t : Nat)
  | checkPending (t : Nat)
  | register (t : Nat)
  | runTask (t : Nat)
  | runAttached (t : Nat)
  | cleanupTask (t : Nat)
deriving DecidableEq, Repr

/-- Shared state of the resolve protocol for one rule-package identity:
the cache entry (`ResolveMapCache`), the in-flight registry entry
(`ResolveMapEventGraphRefCache`, holding the id of the thread whose task is
registered), which tasks have run and been cleaned up, how many engine
`prt::createResolveMap` calls have executed, the handle freshness counter, the
`RpkLoadingTasksCounter`, and each thread's control point. -/
structure RConfig where
  ready : Bool
  cache : Option Nat
  flushedEngineCache : Bool
  pendingTask : Option Nat
  ranTasks : List Nat
  cleanedTasks : List Nat
  engineResolves : Nat
  nextHandle : Nat
  rpkLoadingTasksCounter : Int
  threads : List TState
deriving DecidableEq, Repr

/-- Replace thread `t`'s control point. -/
def setThread (c : RConfig) (t : Nat) (s : TState) : RConfig :=
  { c with threads := c.threads.set t s }

/-- One step of the resolve protocol.  `none` means the event is not enabled in
the given configuration.

* `guardReady`: lines 1084-1088 — when not initialized the promise is fulfilled
  immediately with a null handle;
* `checkCache`: lines 1093-1101 — under the lock, a cache hit fulfils the
  promise with the cached handle and returns;
* `checkPending`: lines 1104-1108 — under the lock, look up the in-flight
  registry (the lock is released before acting on the observation);
* `register` (lines 1123-1133, enabled only for a thread that *observed no
  pending task*): increment `RpkLoadingTasksCounter`, construct and dispatch
  `FLoadResolveMapTask`, and add it to the registry — overwriting whatever entry
  another thread may have added since this thread's `checkPending`;
* `runTask`: `FLoadResolveMapTask::DoTask`, success path (lines 104-135) —
  materialize the rule package and call `prt::createResolveMap`, then under the
  lock add the result to the cache and fulfil this task's promise;
* `runAttached`: the continuation a thread attached behind an in-flight task
  (lines 1111-1121) — after that task has run, read the cache under the lock and
  fulfil the promise;
* `cleanupTask`: lines 1136-1142 — after a task runs, decrement the counter and
  remove the identity's registry entry (whichever task it currently names). -/
def resolveStep (c : RConfig) : REvent → Option RConfig
  | .guardReady t =>
    match c.threads.get? t with
    | some .start =>
      if c.ready then some (setThread c t .passedGuard)
      else some (setThread c t (.done none))
    | _ => none
  | .checkCache t =>
    match c.threads.get? t with
    | some .passedGuard =>
      match c.cache with
      | some h => some (setThread c t (.done (some h)))
      | none => some (setThread c t .cacheMissed)
    | _ => none
  | .checkPending t =>
    match c.threads.get? t with
    | some .cacheMissed =>
      match c.pendingTask with
      | some t' => some (setThread c t (.attachedTo t'))
      | none => some (setThread c t .observedNone)
    | _ => none
  | .register t =>
    match c.threads.get? t with
    | some .observedNone =>
      some { setThread c t .taskRegistered with
             pendingTask := some t,
             rpkLoadingTasksCounter := c.rpkLoadingTasksCounter + 1 }
    | _ => none
  | .runTask t =>
    match c.threads.get? t with
    | some .taskRegistered =>
      some { setThread c t (.done (some c.nextHandle)) with
             cache := some c.nextHandle,
             engineResolves := c.engineResolves + 1,
             nextHandle := c.nextHandle + 1,
             ranTasks := c.ranTasks ++ [t] }
    | _ => none
  | .runAttached t =>
    match c.threads.get? t with
    | some (.attachedTo t') =>
      if t' ∈ c.ranTasks then
        match c.cache with
        | some h => some (setThread c t (.done (some h)))
        | none => none
      else none
    | _ => none
  | .cleanupTask t =>
    if t ∈ c.ranTasks ∧ t ∉ c.cleanedTasks then
      let c' := { c with
                  pendingTask := (none : Option Nat),
                  rpkLoadingTasksCounter := c.rpkLoadingTasksCounter - 1,
                  cleanedTasks := c.cleanedTasks ++ [t] }
      some c'
    else none

/-- Execute a schedule (an interleaving chosen by the task scheduler);
`none` if some event is not enabled where it occurs. -/
def resolveRun (c : RConfig) : List REvent → Option RConfig
  | [] => some c
  | e :: es =>
    match resolveStep c e with
    | some c' => resolveRun c' es
    | none => none

/-- Initial configuration: module initialized, identity never resolved, `n`
threads about to call `LoadResolveMapAsync` for it. -/
def initResolveConfig (n : Nat) : RConfig :=
  ⟨true, none, false, none, [], [], 0, 0, 0, List.replicate n .start⟩

/-- The racing interleaving: both threads pass the cache check and the
in-flight-registry check (each a separate `FScopeLock` scope) before either
registers its task; then both register and both tasks run. -/
def raceSchedule : List REvent :=
  [.guardReady 0, .guardReady 1, .checkCache 0, .checkCache 1,
   .checkPending 0, .checkPending 1, .register 0, .register 1,
   .runTask 0, .runTask 1]

/-- `VitruvioModule::EvictFromResolveMapCache` (`VitruvioModule.cpp:984-990`):
remove the cache entry and flush the engine-side result cache
(`PrtCache->flushAll()`). -/
def EvictFromResolveMapCache (c : RConfig) : RConfig :=
  { c with cache := none, flushedEngineCache := true }

/-! ## Failure path of `FLoadResolveMapTask::DoTask` and its consumers -/

/-- What a dependent generate/evaluate call does first with the resolve-map
future's value (`VitruvioModule.cpp:457-459`, `718-720`, `838-840`, `895-897`):
`ResolveMap->findCGBKey()` is invoked on the `ResolveMapSPtr` with no null
check, so a null handle is dereferenced (undefined behavior — modelled as
`nullDereference`). -/
inductive DependentCallStep
  | nullDereference
  | proceeds (handle : Nat)
deriving DecidableEq, Repr

/-- First step of every dependent generate/evaluate call on the resolved map. -/
def findCGBKeyOnResolveMap : Option Nat → DependentCallStep
  | none => .nullDereference
  | some h => .proceeds h

/-- `TMap::Add` on `ResolveMapCache` (which stores possibly-null
`ResolveMapSPtr` values). -/
def insertRpkCache : List (Nat × Option Nat) → Nat → Option Nat → List (Nat × Option Nat)
  | [], p, m => [(p, m)]
  | (q, v) :: rest, p, m =>
    if q = p then (p, m) :: rest else (q, v) :: insertRpkCache rest p m

/-- `FLoadResolveMapTask::DoTask` (`VitruvioModule.cpp:102-141`) with explicit
failure cases: if `OpenWrite` fails (`writeOk = false`), the promise is
fulfilled with a null handle and the cache is left untouched (lines 136-139);
otherwise `prt::createResolveMap` runs — if it fails (`resolveOk = false`) the
resulting null handle is both cached and used to fulfil the promise
(lines 124-134). Returns the promise value and the updated cache. -/
def FLoadResolveMapTaskDoTask (writeOk resolveOk : Bool)
    (cache : List (Nat × Option Nat)) (pkg fresh : Nat) :
    Option Nat × List (Nat × Option Nat) :=
  if writeOk then
    let m : Option Nat := if resolveOk then some fresh else none
    (m, insertRpkCache cache pkg m)
  else (none, cache)

/-! ## Occlusion-registry invariant -/

/-- The shape indices present in the occlusion registry. -/
def occKeys (cache : List (Int × Nat)) : List Int := cache.map Prod.fst

/-- Invariant of the occlusion registry: the registry is a map (each shape index
has at most one recorded handle), every recorded handle is below the freshness
counter, and so is every disposed handle (hence a handle produced at the counter
is fresh: not previously recorded and not previously disposed). -/
def OccInv (st : ModState) : Prop :=
  (occKeys st.occlusionHandleCache).Nodup ∧
  (∀ h ∈ st.occlusionHandleCache.map Prod.snd, h < st.occlusionNextHandle) ∧
  (∀ h ∈ st.disposedOcclusionHandles, h < st.occlusionNextHandle)

/-- A convenient fully-initialized idle module state. -/
def stReady0 : ModState := ⟨true, 0, 0, 0, [], 0, []⟩

theorem mem_removeOcc {c : List (Int × Nat)} {i : Int} {x : Int × Nat}
    (hx : x ∈ removeOcc c i) : x ∈ c := by
  induction c with
  | nil => simp [removeOcc] at hx
  | cons p rest ih =>
    obtain ⟨j, h⟩ := p
    by_cases hji : j = i
    · simp only [removeOcc, if_pos hji] at hx
      exact List.mem_cons_of_mem _ (ih hx)
    · simp only [removeOcc, if_neg hji, List.mem_cons] at hx
      rcases hx with hx | hx
      · exact hx ▸ List.mem_cons_self _ _
      · exact List.mem_cons_of_mem _ (ih hx)

theorem mem_occKeys_removeOcc {c : List (Int × Nat)} {i x : Int}
    (hx : x ∈ occKeys (removeOcc c i)) : x ∈ occKeys c := by
  obtain ⟨⟨j, h⟩, hmem, rfl⟩ := List.mem_map.mp hx
  exact List.mem_map.mpr ⟨_, mem_removeOcc hmem, rfl⟩

theorem mem_snd_removeOcc {c : List (Int × Nat)} {i : Int} {h : Nat}
    (hx : h ∈ (removeOcc c i).map Prod.snd) : h ∈ c.map Prod.snd := by
  obtain ⟨⟨j, g⟩, hmem, rfl⟩ := List.mem_map.mp hx
  exact List.mem_map.mpr ⟨_, mem_removeOcc hmem, rfl⟩

theorem nodup_occKeys_removeOcc {c : List (Int × Nat)} {i : Int}
    (hc : (occKeys c).Nodup) : (occKeys (removeOcc c i)).Nodup := by
  induction c with
  | nil => simp [removeOcc, occKeys]
  | cons p rest ih =>
    obtain ⟨j, h⟩ := p
    simp only [occKeys, List.map_cons, List.nodup_cons] at hc
    by_cases hji : j = i
    · simp only [removeOcc, if_pos hji]
      exact ih hc.2
    · simp only [removeOcc, if_neg hji, occKeys, List.map_cons, List.nodup_cons]
      exact ⟨fun hmem => hc.1 (mem_occKeys_removeOcc hmem), ih hc.2⟩

theorem lookupOcc_removeOcc_self (c : List (Int × Nat)) (i : Int) :
    lookupOcc (removeOcc c i) i = none := by
  induction c with
  | nil => rfl
  | cons p rest ih =>
    obtain ⟨j, h⟩ := p
    by_cases hji : j = i
    · simp only [removeOcc, if_pos hji]
      exact ih
    · simp only [removeOcc, if_neg hji, lookupOcc, if_neg hji]
      exact ih

theorem lookupOcc_mem_snd {c : List (Int × Nat)} {i : Int} {h : Nat}
    (hl : lookupOcc c i = some h) : h ∈ c.map Prod.snd := by
  induction c with
  | nil => simp [lookupOcc] at hl
  | cons p rest ih =>
    obtain ⟨j, g⟩ := p
    by_cases hji : j = i
    · simp only [lookupOcc, if_pos hji, Option.some.injEq] at hl
      simp [hl]
    · simp only [lookupOcc, if_neg hji] at hl
      simp [ih hl]

theorem lookupOcc_insertOcc_self (c : List (Int × Nat)) (i : Int) (h : Nat) :
    lookupOcc (insertOcc c i h) i = some h := by
  induction c with
  | nil => simp [insertOcc, lookupOcc]
  | cons p rest ih =>
    obtain ⟨j, g⟩ := p
    by_cases hji : j = i
    · simp [insertOcc, if_pos hji, lookupOcc]
    · simp only [insertOcc, if_neg hji, lookupOcc, if_neg hji]
      exact ih

theorem mem_occKeys_insertOcc {c : List (Int × Nat)} {i x : Int} {h : Nat}
    (hx : x ∈ occKeys (insertOcc c i h)) : x ∈ occKeys c ∨ x = i := by
  induction c with
  | nil =>
    simp only [insertOcc, occKeys, List.map_cons, List.map_nil, List.mem_singleton] at hx
    exact Or.inr hx
  | cons p rest ih =>
    obtain ⟨j, g⟩ := p
    by_cases hji : j = i
    · simp only [insertOcc, if_pos hji, occKeys, List.map_cons, List.mem_cons] at hx
      rcases hx with hx | hx
      · exact Or.inr hx
      · exact Or.inl (by simp [occKeys, hx])
    · simp only [insertOcc, if_neg hji, occKeys, List.map_cons, List.mem_cons] at hx
      rcases hx with hx | hx
      · exact Or.inl (by simp [occKeys, hx])
      · rcases ih hx with hmem | hxi
        · exact Or.inl (by simp [occKeys] at hmem ⊢; exact Or.inr hmem)
        · exact Or.inr hxi

theorem nodup_occKeys_insertOcc {c : List (Int × Nat)} {i : Int} {h : Nat}
    (hc : (occKeys c).Nodup) : (occKeys (insertOcc c i h)).Nodup := by
  induction c with
  | nil => simp [insertOcc, occKeys]
  | cons p rest ih =>
    obtain ⟨j, g⟩ := p
    simp only [occKeys, List.map_cons, List.nodup_cons] at hc
    by_cases hji : j = i
    · simp only [insertOcc, if_pos hji, occKeys, List.map_cons, List.nodup_cons]
      exact ⟨hji ▸ hc.1, hc.2⟩
    · simp only [insertOcc, if_neg hji, occKeys, List.map_cons, List.nodup_cons]
      refine ⟨fun hmem => ?_, ih hc.2⟩
      rcases mem_occKeys_insertOcc hmem with hmem | hji'
      · exact hc.1 hmem
      · exact hji hji'

theorem mem_snd_insertOcc {c : List (Int × Nat)} {i : Int} {h g : Nat}
    (hx : g ∈ (insertOcc c i h).map Prod.snd) : g ∈ c.map Prod.snd ∨ g = h := by
  induction c with
  | nil =>
    simp only [insertOcc, List.map_cons, List.map_nil, List.mem_singleton] at hx
    exact Or.inr hx
  | cons p rest ih =>
    obtain ⟨j, v⟩ := p
    by_cases hji : j = i
    · simp only [insertOcc, if_pos hji, List.map_cons, List.mem_cons] at hx
      rcases hx with hx | hx
      · exact Or.inr hx
      · exact Or.inl (by simp [hx])
    · simp only [insertOcc, if_neg hji, List.map_cons, List.mem_cons] at hx
      rcases hx with hx | hx
      · exact Or.inl (by simp [hx])
      · rcases ih hx with hmem | hgh
        · exact Or.inl (by simp at hmem ⊢; exact Or.inr hmem)
        · exact Or.inr hgh

theorem invalidateLoop_nodup {idxs : List Int} :
    ∀ {cache : List (Int × Nat)} {acc : List Nat}, (occKeys cache).Nodup →
      (occKeys (invalidateLoop cache acc idxs).1).Nodup := by
  induction idxs with
  | nil => intro cache acc hc; simpa [invalidateLoop] using hc
  | cons i rest ih =>
    intro cache acc hc
    simp only [invalidateLoop]
    exact ih (nodup_occKeys_removeOcc hc)

theorem invalidateLoop_bound {idxs : List Int} {B : Nat} :
    ∀ {cache : List (Int × Nat)} {acc : List Nat},
      (∀ h ∈ cache.map Prod.snd, h < B) → (∀ h ∈ acc, h < B) →
      (∀ h ∈ (invalidateLoop cache acc idxs).1.map Prod.snd, h < B) ∧
      (∀ h ∈ (invalidateLoop cache acc idxs).2, h < B) := by
  induction idxs with
  | nil =>
    intro cache acc hc ha
    exact ⟨fun h hm => hc h (by simpa [invalidateLoop] using hm),
           fun h hm => ha h (by simpa [invalidateLoop] using hm)⟩
  | cons i rest ih =>
    intro cache acc hc ha
    simp only [invalidateLoop]
    refine ih (fun h hm => hc h (mem_snd_removeOcc hm)) ?_
    cases hl : lookupOcc cache i with
    | none => simpa [hl] using ha
    | some g =>
      simp only [hl]
      intro h hm
      rcases List.mem_append.mp hm with hm | hm
      · exact ha h hm
      · simp only [List.mem_singleton] at hm
        exact hm ▸ hc g (lookupOcc_mem_snd hl)

theorem addFresh_nodup {idxs : List Int} :
    ∀ {cache : List (Int × Nat)} {nxt : Nat}, (occKeys cache).Nodup →
      (occKeys (addFresh cache nxt idxs).1).Nodup := by
  induction idxs with
  | nil => intro cache nxt hc; simpa [addFresh] using hc
  | cons i rest ih =>
    intro cache nxt hc
    simp only [addFresh]
    exact ih (nodup_occKeys_insertOcc hc)

theorem addFresh_next_le {idxs : List Int} :
    ∀ {cache : List (Int × Nat)} {nxt : Nat}, nxt ≤ (addFresh cache nxt idxs).2 := by
  induction idxs with
  | nil => intro cache nxt; simp [addFresh]
  | cons i rest ih =>
    intro cache nxt
    simp only [addFresh]
    exact le_trans (Nat.le_succ nxt) ih

theorem addFresh_bound {idxs : List Int} :
    ∀ {cache : List (Int × Nat)} {nxt : Nat}, (∀ h ∈ cache.map Prod.snd, h < nxt) →
      ∀ h ∈ (addFresh cache nxt idxs).1.map Prod.snd, h < (addFresh cache nxt idxs).2 := by
  induction idxs with
  | nil => intro cache nxt hc; simpa [addFresh] using hc
  | cons i rest ih =>
    intro cache nxt hc
    simp only [addFresh]
    refine ih ?_
    intro h hm
    rcases mem_snd_insertOcc hm with hm | rfl
    · exact lt_trans (hc h hm) (Nat.lt_succ_self nxt)
    · exact Nat.lt_succ_self _

theorem occInv_invalidateOcclusionHandle {st : ModState} (hInv : OccInv st) (i : Int) :
    OccInv (InvalidateOcclusionHandle st i) := by
  obtain ⟨hnd, hcb, hdb⟩ := hInv
  unfold InvalidateOcclusionHandle
  cases hl : lookupOcc st.occlusionHandleCache i with
  | none => exact ⟨hnd, hcb, hdb⟩
  | some h =>
    refine ⟨nodup_occKeys_removeOcc hnd, fun g hg => hcb g (mem_snd_removeOcc hg), ?_⟩
    intro g hg
    rcases List.mem_append.mp hg with hg | hg
    · exact hdb g hg
    · simp only [List.mem_singleton] at hg
      exact hg ▸ hcb h (lookupOcc_mem_snd hl)

theorem occInv_invalidateOcclusionHandles {st : ModState} (hInv : OccInv st)
    (idxs : List Int) : OccInv (InvalidateOcclusionHandles st idxs) := by
  obtain ⟨hnd, hcb, hdb⟩ := hInv
  obtain ⟨hb1, hb2⟩ := @invalidateLoop_bound idxs st.occlusionNextHandle
    st.occlusionHandleCache [] hcb (by simp)
  refine ⟨invalidateLoop_nodup hnd, hb1, ?_⟩
  intro g hg
  rcases List.mem_append.mp hg with hg | hg
  · exact hdb g hg
  · exact hb2 g hg

theorem occInv_invalidateAllOcclusionHandles {st : ModState} (hInv : OccInv st) :
    OccInv (InvalidateAllOcclusionHandles st) := by
  obtain ⟨_, _, hdb⟩ := hInv
  exact ⟨by simp [InvalidateAllOcclusionHandles, occKeys], by simp [InvalidateAllOcclusionHandles], hdb⟩

theorem occInv_addFreshHandles {st : ModState} (hInv : OccInv st) (missing : List Int) :
    OccInv (addFreshHandles st missing) := by
  obtain ⟨hnd, hcb, hdb⟩ := hInv
  refine ⟨addFresh_nodup hnd, addFresh_bound hcb, ?_⟩
  intro g hg
  exact lt_of_lt_of_le (hdb g hg) addFresh_next_le

theorem invalidateOcclusionHandle_next (st : ModState) (i : Int) :
    (InvalidateOcclusionHandle st i).occlusionNextHandle = st.occlusionNextHandle := by
  unfold InvalidateOcclusionHandle
  cases lookupOcc st.occlusionHandleCache i <;> rfl

theorem invalidateOcclusionHandle_ready (st : ModState) (i : Int) :
    (InvalidateOcclusionHandle st i).ready = st.ready := by
  unfold InvalidateOcclusionHandle
  cases lookupOcc st.occlusionHandleCache i <;> rfl

/-- The occlusion-relevant effect of a one-shape `BatchGenerate` with occlusion
queries enabled and every engine call succeeding: the shape's main-batch index
is invalidated first (`VitruvioModule.cpp:562`), so it is always missing from
the registry and receives the handle drawn at the freshness counter. -/
theorem batchGenerate_single_occlusion_cache (st : ModState) (hReady : st.ready = true)
    (i : Int) (p : Nat) :
    (BatchGenerate st engAllOk [⟨i, p, false⟩] [] true).2.1.occlusionHandleCache
      = insertOcc (removeOcc st.occlusionHandleCache i) i st.occlusionNextHandle := by
  simp only [BatchGenerate, engAllOk, hReady, List.isEmpty_cons, groupByPackage, List.foldl,
    addToGroups, flattenGroups, List.foldr, List.append_nil, List.filter, missingIndices,
    InvalidateOcclusionHandles, invalidateLoop, addFreshHandles, addFresh,
    lookupOcc_removeOcc_self, Option.isNone_none,
    Bool.false_eq_true, if_false, if_true, List.map_cons, List.map_nil]
  rfl

/-! ## Claims -/

/-- Claim C1 — refuted on the code. The claim states that for N concurrent
`LoadResolveMapAsync` calls on the same never-before-resolved rule-package
identity, `FLoadResolveMapTask` executes exactly once and all futures complete
with the same handle. The cache check (`VitruvioModule.cpp:1093-1101`), the
in-flight-registry check (lines 1104-1108) and the task registration
(lines 1126-1133) are three *separate* `FScopeLock` scopes, so two threads can
both observe an empty registry before either registers: in `raceSchedule`
both threads register and run their own `FLoadResolveMapTask`. This theorem
evaluates that interleaving: the engine materialize-and-resolve executes
**twice** (`engineResolves = 2`) and the two futures complete with **different**
handles (`some 0` vs `some 1`). -/
theorem loadResolveMapAsync_race_duplicates_engine_resolve :
    (resolveRun (initResolveConfig 2) raceSchedule).map
        (fun c => (c.engineResolves, c.threads))
      = some (2, [TState.done (some 0), TState.done (some 1)]) := by decide

/-- Claim C2 — refuted on the code. The claim states that every call that
completes (successfully or with a failure) decrements the counter it
incremented, exactly once and by exactly the amount it added, and that shutdown
releases resources only when all three counters are zero. In
`VitruvioModule::EvaluateRuleAttributesAsync`, `LoadAttributesCounter` is
incremented at line 835, but the failure return at lines 848-855 (when
`prt::createRuleFileInfo` fails) never decrements it: the completed call leaves
the counter at 1, and the drain condition polled by `ShutdownModule`
(lines 370-372) can then never become true. -/
theorem loadAttributesCounter_leaks_on_rule_info_failure :
    EvaluateRuleAttributesAsync stReady0 false
      = (.nullMap, ⟨true, 0, 1, 0, [], 0, []⟩, []) ∧
    ShutdownDrained (EvaluateRuleAttributesAsync stReady0 false).2.1 = false := by decide

/-- Claim C3 — refuted on the code. The claim states that batch results come
back in the positional order of the submitted shape indices regardless of how
many rule packages are involved. Both `BatchEvaluateRuleAttributes`
(lines 969-975) and `BatchGenerate` (lines 537-543) append the evaluated
attribute maps in the order of `ForeachInitialShape`, which iterates the
per-package groups — i.e. grouping order, not input order. For the batch
`[10 → package 0, 20 → package 1, 30 → package 0]` the result order is
`[10, 30, 20]`, not the submitted order `[10, 20, 30]`. -/
theorem batch_results_in_grouping_order_not_input_order :
    (BatchEvaluateRuleAttributes stReady0 engAllOk
        [⟨10, 0, false⟩, ⟨20, 1, false⟩, ⟨30, 0, false⟩]).1 = [10, 30, 20] ∧
    ((BatchEvaluateRuleAttributes stReady0 engAllOk
        [⟨10, 0, false⟩, ⟨20, 1, false⟩, ⟨30, 0, false⟩]).1 == [10, 20, 30]) = false ∧
    (BatchGenerate stReady0 engAllOk
        [⟨10, 0, false⟩, ⟨20, 1, false⟩, ⟨30, 0, false⟩] [] false).1.evaluatedAttrIndices
      = [10, 30, 20] := by decide

/-- Claim C4 — refuted on the code. The claim states that a failed engine call
inside a generate call rolls the generate counter back to exactly its pre-call
value. In `VitruvioModule::BatchGenerate`, the counter is incremented by
`InitialShapes.Num()` (= 2 here) at line 429, but:
* when the attribute-evaluation `generate` call fails, line 532 subtracts
  `InitialShapes.Num()` of the array that was moved-from at line 445 — i.e.
  subtracts 0, leaving the counter at 2;
* when `generateOccluders` fails, line 599 calls `Decrement()` — subtracting 1
  instead of 2, leaving the counter at 1.
Only the final-generate failure path (line 660) subtracts the saved
`NumInitialShapes` and restores the counter to 0. The result is empty and no
geometry is delivered in all three cases. -/
theorem batchGenerate_failure_rollback_mismatch :
    BatchGenerate stReady0 ⟨false, true, true⟩ [⟨10, 0, false⟩, ⟨20, 0, false⟩] [] false
      = (emptyGenResult, ⟨true, 2, 0, 0, [], 0, []⟩, [ECall.evalGenerate]) ∧
    BatchGenerate stReady0 ⟨true, false, true⟩ [⟨10, 0, false⟩, ⟨20, 0, false⟩] [] true
      = (emptyGenResult, ⟨true, 1, 0, 0, [], 0, []⟩,
         [ECall.evalGenerate, ECall.generateOccluders]) ∧
    BatchGenerate stReady0 ⟨true, true, false⟩ [⟨10, 0, false⟩, ⟨20, 0, false⟩] [] false
      = (emptyGenResult, ⟨true, 0, 0, 0, [], 0, []⟩,
         [ECall.evalGenerate, ECall.finalGenerate]) := by decide

/-- Claim C5 — refuted on the code (second half). The first half holds: when
materialization fails (`OpenWrite` returns null, lines 136-139) or engine
resolution fails (lines 128-134), `FLoadResolveMapTask::DoTask` fulfils the
promise with a null handle. But the dependent generate/evaluate calls do not
"fail gracefully by returning an empty result": every consumer immediately
calls `ResolveMap->findCGBKey()` on the future's value with no null check
(`VitruvioModule.cpp:457-459`, `718-720`, `838-840`, `895-897`), dereferencing
the null handle (undefined behavior / crash) instead of skipping the request. -/
theorem null_resolve_map_is_dereferenced_not_skipped (resolveOk : Bool)
    (cache : List (Nat × Option Nat)) (pkg fresh : Nat) :
    (FLoadResolveMapTaskDoTask false resolveOk cache pkg fresh).1 = none ∧
    (FLoadResolveMapTaskDoTask true false cache pkg fresh).1 = none ∧
    findCGBKeyOnResolveMap none = DependentCallStep.nullDereference :=
  ⟨rfl, rfl, rfl⟩

/-- Claim C6 — confirmed. After a successful resolution the cache holds the
handle; a subsequent `LoadResolveMapAsync` call completes immediately with the
cached handle from the `checkCache` critical section (lines 1093-1101), leaving
the whole configuration unchanged except the caller's thread — in particular no
new materialize/engine-resolve runs (`engineResolves` unchanged) and no task is
registered. `EvictFromResolveMapCache` (lines 984-990) removes the cache entry
and flushes the engine-side result cache; a resolve call after eviction misses
the cache, registers a fresh `FLoadResolveMapTask`, and running it performs one
new engine resolve (`engineResolves = n + 1`). -/
theorem resolve_cache_hit_then_evict_retriggers (hdl n m : Nat) (k : Int) (fl : Bool)
    (ran cln : List Nat) :
    resolveRun ⟨true, some hdl, fl, none, ran, cln, n, m, k, [.start]⟩
        [.guardReady 0, .checkCache 0]
      = some ⟨true, some hdl, fl, none, ran, cln, n, m, k, [.done (some hdl)]⟩ ∧
    EvictFromResolveMapCache ⟨true, some hdl, fl, none, ran, cln, n, m, k, [.start]⟩
      = ⟨true, none, true, none, ran, cln, n, m, k, [.start]⟩ ∧
    resolveRun ⟨true, none, true, none, ran, cln, n, m, k, [.start]⟩
        [.guardReady 0, .checkCache 0, .checkPending 0, .register 0, .runTask 0]
      = some ⟨true, some m, true, some 0, ran ++ [0], cln, n + 1, m + 1, k + 1,
              [.done (some m)]⟩ :=
  ⟨rfl, rfl, rfl⟩

/-- Claim C7 — confirmed. The occlusion registry satisfies, and every registry
operation preserves, the invariant `OccInv`: each shape index has at most one
recorded handle (`occKeys` nodup) and all recorded/disposed handles lie below
the freshness counter. Moreover, `InvalidateOcclusionHandle` followed by a
`BatchGenerate` that needs an occlusion handle for the same index records the
handle drawn at the freshness counter — a fresh handle, distinct from every
handle ever disposed (including the one just disposed by the invalidation). -/
theorem occlusion_registry_single_live_handle (st : ModState) (hInv : OccInv st)
    (hReady : st.ready = true) (i : Int) (p : Nat) (idxs missing : List Int) :
    OccInv (InvalidateOcclusionHandle st i) ∧
    OccInv (InvalidateOcclusionHandles st idxs) ∧
    OccInv (InvalidateAllOcclusionHandles st) ∧
    OccInv (addFreshHandles st missing) ∧
    lookupOcc (BatchGenerate (InvalidateOcclusionHandle st i) engAllOk
        [⟨i, p, false⟩] [] true).2.1.occlusionHandleCache i
      = some st.occlusionNextHandle ∧
    st.occlusionNextHandle ∉ (InvalidateOcclusionHandle st i).disposedOcclusionHandles := by
  refine ⟨occInv_invalidateOcclusionHandle hInv i,
          occInv_invalidateOcclusionHandles hInv idxs,
          occInv_invalidateAllOcclusionHandles hInv,
          occInv_addFreshHandles hInv missing, ?_, ?_⟩
  · rw [batchGenerate_single_occlusion_cache _
          (by rw [invalidateOcclusionHandle_ready]; exact hReady) i p,
        invalidateOcclusionHandle_next]
    exact lookupOcc_insertOcc_self _ _ _
  · have h3 := (occInv_invalidateOcclusionHandle hInv i).2.2
    rw [invalidateOcclusionHandle_next] at h3
    exact fun hmem => lt_irrefl _ (h3 _ hmem)

/-- Witness for C7: the invariant hypotheses hold at a concrete state (one
cached handle `0` for index `5`, freshness counter `1`) and the theorem applies
to it. -/
theorem occlusion_registry_single_live_handle_witness :
    OccInv ⟨true, 0, 0, 0, [(5, 0)], 1, []⟩ ∧
    (⟨true, 0, 0, 0, [(5, 0)], 1, []⟩ : ModState).ready = true ∧
    (OccInv (InvalidateOcclusionHandle ⟨true, 0, 0, 0, [(5, 0)], 1, []⟩ 5) ∧
     OccInv (InvalidateOcclusionHandles ⟨true, 0, 0, 0, [(5, 0)], 1, []⟩ [5]) ∧
     OccInv (InvalidateAllOcclusionHandles ⟨true, 0, 0, 0, [(5, 0)], 1, []⟩) ∧
     OccInv (addFreshHandles ⟨true, 0, 0, 0, [(5, 0)], 1, []⟩ [7]) ∧
     lookupOcc (BatchGenerate (InvalidateOcclusionHandle ⟨true, 0, 0, 0, [(5, 0)], 1, []⟩ 5)
         engAllOk [⟨5, 0, false⟩] [] true).2.1.occlusionHandleCache 5
       = some (⟨true, 0, 0, 0, [(5, 0)], 1, []⟩ : ModState).occlusionNextHandle ∧
     (⟨true, 0, 0, 0, [(5, 0)], 1, []⟩ : ModState).occlusionNextHandle
       ∉ (InvalidateOcclusionHandle ⟨true, 0, 0, 0, [(5, 0)], 1, []⟩ 5).disposedOcclusionHandles) := by
  have hInv : OccInv ⟨true, 0, 0, 0, [(5, 0)], 1, []⟩ := by
    unfold OccInv
    refine ⟨?_, ?_, ?_⟩ <;> decide
  exact ⟨hInv, rfl, occlusion_registry_single_live_handle _ hInv rfl 5 0 [5] [7]⟩

/-- Claim C8 — confirmed. With the module not initialized (before startup or
after `ShutdownModule` flips the flag at line 363), every public entry point
returns an immediately-completed empty result: the sync cores return `{}`
(`CHECK_PRT_INITIALIZED`), the async variants return an already-fulfilled
future (`CHECK_PRT_INITIALIZED_ASYNC`, lines 46-53), and
`LoadResolveMapAsync` fulfils its promise with a null handle before returning
(lines 1084-1088). No counter is touched and no engine call is issued (the
state is returned unchanged and the engine-call trace is empty). -/
theorem not_ready_entry_points_return_immediate_empty
    (g l r : Int) (cache : List (Int × Nat)) (nx : Nat) (disp : List Nat)
    (eng : Engine) (shapes occ : List FInitialShape) (b rio : Bool)
    (co : Option Nat) (fl : Bool) (pend : Option Nat) (ran cln : List Nat)
    (er nh : Nat) (rc : Int) :
    BatchGenerate ⟨false, g, l, r, cache, nx, disp⟩ eng shapes occ b
        = (emptyGenResult, ⟨false, g, l, r, cache, nx, disp⟩, []) ∧
    Generate ⟨false, g, l, r, cache, nx, disp⟩ eng shapes
        = (emptyGenResult, ⟨false, g, l, r, cache, nx, disp⟩, []) ∧
    BatchEvaluateRuleAttributes ⟨false, g, l, r, cache, nx, disp⟩ eng shapes
        = ([], ⟨false, g, l, r, cache, nx, disp⟩, []) ∧
    EvaluateRuleAttributesAsync ⟨false, g, l, r, cache, nx, disp⟩ rio
        = (.notReadyEmpty, ⟨false, g, l, r, cache, nx, disp⟩, []) ∧
    BatchGenerateAsync ⟨false, g, l, r, cache, nx, disp⟩ eng shapes occ b
        = .immediate (emptyGenResult, ⟨false, g, l, r, cache, nx, disp⟩, []) ∧
    GenerateAsync ⟨false, g, l, r, cache, nx, disp⟩ eng shapes
        = .immediate (emptyGenResult, ⟨false, g, l, r, cache, nx, disp⟩, []) ∧
    BatchEvaluateRuleAttributesAsync ⟨false, g, l, r, cache, nx, disp⟩ eng shapes
        = .immediate ([], ⟨false, g, l, r, cache, nx, disp⟩, []) ∧
    resolveRun ⟨false, co, fl, pend, ran, cln, er, nh, rc, [.start]⟩ [.guardReady 0]
        = some ⟨false, co, fl, pend, ran, cln, er, nh, rc, [.done none]⟩ := by
  refine ⟨?_, rfl, rfl, rfl, rfl, rfl, rfl, rfl⟩
  cases shapes <;> rfl

/-- Claim C9 — confirmed. A generate call with an empty input batch returns
`{}` immediately: `BatchGenerate` checks `InitialShapes.IsEmpty()` at line 422
before the counter and before any engine call, and `Generate` checks
`InitialShapes.Num() == 0` at lines 710-713 before its counter increment. In
both cases the state is unchanged (no counter touched) and the engine-call
trace is empty. -/
theorem empty_batch_returns_immediately (st : ModState) (eng : Engine)
    (occ : List FInitialShape) (b : Bool) :
    BatchGenerate st eng [] occ b = (emptyGenResult, st, []) ∧
    Generate st eng [] = (emptyGenResult, st, []) := by
  constructor
  · rfl
  · cases hr : st.ready <;> simp [Generate, hr]

/-- Claim C10 — confirmed. When the main `InitialShapes` array is empty, the
early-out at line 422 fires even if `OccluderOnlyShapes` is non-empty: the call
returns `{}` immediately with the state unchanged (no counter incremented, no
occlusion handle computed or cached, no disposal) and no engine call issued —
occluder-only shapes alone never trigger any work. -/
theorem occluder_only_shapes_trigger_no_work (st : ModState) (eng : Engine)
    (occluderOnlyShapes : List FInitialShape) (b : Bool)
    (_hocc : occluderOnlyShapes ≠ []) :
    BatchGenerate st eng [] occluderOnlyShapes b = (emptyGenResult, st, []) := rfl

/-- Witness for C10: a non-empty occluder-only batch at a concrete state. -/
theorem occluder_only_shapes_trigger_no_work_witness :
    ([(⟨0, 0, true⟩ : FInitialShape)] ≠ []) ∧
    BatchGenerate stReady0 engAllOk [] [⟨0, 0, true⟩] true
      = (emptyGenResult, stReady0, []) :=
  ⟨by decide,
   occluder_only_shapes_trigger_no_work stReady0 engAllOk [⟨0, 0, true⟩] true (by decide)⟩

end Vitruvio
